import Mathlib

/-!
# Verification of the EduAttend client script (`src/script.js`)

This file gives a shallow embedding of the client-side logic of the
attendance-tracking web application and proves properties of it.

Modelling conventions:
* `localStorage` is modelled as a total function `String → Option String`
  (`none` is JavaScript `null` from `getItem`).
* JavaScript string truthiness (`null`/`""` are falsy) is modelled by
  `jsTruthy` / `jsOr`.
* DOM side effects (storage writes, navigation, alerts, innerHTML) are made
  explicit as returned data in outcome records.
* External browser primitives with no algorithmic content
  (`JSON.parse`, `toLocaleDateString`, `toLocaleTimeString`,
  `encodeURIComponent`) are parameters of the corresponding definitions.
-/

namespace EduAttend

/-- The browser key-value store: a map from keys to stored strings.
`none` means the key is absent (JS `getItem` returns `null`). -/
def Storage := String → Option String

/-- `localStorage.getItem`. -/
def Storage.getItem (st : Storage) (k : String) : Option String := st k

/-- `localStorage.setItem`. -/
def Storage.setItem (st : Storage) (k v : String) : Storage :=
  fun q => if q = k then some v else st q

/-- `localStorage.removeItem`. -/
def Storage.removeItem (st : Storage) (k : String) : Storage :=
  fun q => if q = k then none else st q

/-- JS truthiness of a nullable string: `null` and `""` are falsy. -/
def jsTruthy : Option String → Bool
  | some s => s ≠ ""
  | none => false

/-- JS `a || b` for a nullable string `a` and string default `b`. -/
def jsOr (a : Option String) (b : String) : String :=
  match a with
  | some s => if s = "" then b else s
  | none => b

/-- Prefix test on character lists (structural, so that it evaluates
inside the kernel). -/
def listStartsWith : List Char → List Char → Bool
  | _, [] => true
  | [], _ :: _ => false
  | a :: as, b :: bs => a = b && listStartsWith as bs

/-- JS `String.prototype.startsWith`. -/
def strStartsWith (s p : String) : Bool := listStartsWith s.data p.data

/-- Substring occurrence of `needle` in a character list. -/
def containsSub (needle : List Char) : List Char → Bool
  | [] => listStartsWith [] needle
  | c :: rest => listStartsWith (c :: rest) needle || containsSub needle rest

/-- JS `String.prototype.includes`: substring containment. -/
def jsIncludes (s sub : String) : Bool := containsSub sub.data s.data

/-- Drop leading whitespace from a character list. -/
def dropLeadingWs : List Char → List Char
  | [] => []
  | c :: cs => if c.isWhitespace then dropLeadingWs cs else c :: cs

/-- JS `String.prototype.trim`: strip whitespace from both ends. -/
def jsTrim (s : String) : String :=
  ⟨(dropLeadingWs (dropLeadingWs s.data).reverse).reverse⟩

/-- The fields of `window.location` used by the script. -/
structure JsLocation where
  hostname : String
  port : String
  protocol : String
deriving DecidableEq

/-- The hostname test `isLocal` of `getBaseUrl` (script.js line 11). -/
def isLocalHost (hostname : String) : Bool :=
  hostname = "localhost" || hostname = "127.0.0.1" ||
  strStartsWith hostname "192.168." || strStartsWith hostname "10." ||
  strStartsWith hostname "172."

/-- `getBaseUrl` (script.js lines 2-23): resolves the API base URL from a
possible stored override and the page location. -/
def getBaseUrl (st : Storage) (loc : JsLocation) : String :=
  let overrideUrl := st.getItem "eduAttendBackendUrl"
  if jsTruthy overrideUrl then
    jsOr overrideUrl ""
  else
    let isLocal := isLocalHost loc.hostname
    let isFile := loc.protocol = "file:"
    if loc.port = "5000" then "/api"
    else if isLocal || isFile then "http://localhost:5000/api"
    else "/api"

/-- The login response object `data` returned by `POST /auth/login`
(spec section 6: `\x7btoken, role, name, username\x7d`). -/
structure LoginResponse where
  token : String
  role : String
  name : String
  username : String
deriving DecidableEq

/-- Escaping of `"` and `\` performed by `JSON.stringify` on string values. -/
def jsonEscape (s : String) : String :=
  (s.replace "\\" "\\\\").replace "\"" "\\\""

/-- `JSON.stringify(data)` for a login response object. -/
def stringifyLogin (d : LoginResponse) : String :=
  "\x7b\"token\":\"" ++ jsonEscape d.token ++ "\",\"role\":\"" ++ jsonEscape d.role ++
  "\",\"name\":\"" ++ jsonEscape d.name ++ "\",\"username\":\"" ++ jsonEscape d.username ++ "\"\x7d"

/-- Observable outcome of a login form submission: the storage afterwards,
the navigation target assigned to `window.location.href` (if any), and the
alert message shown (if any). -/
structure LoginOutcome where
  storage : Storage
  nav : Option String
  alert : Option String

/-- Shared login continuation (script.js lines 130-147 and 163-180): given the
portal role, the dashboard page, the portal-specific error text, and the
result of `apiRequest('/auth/login', ...)` (`Except.error` when the request
threw), produce the observable outcome. -/
def loginContinuation (expectedRole dashboardPage portalError : String)
    (st : Storage) (apiResult : Except String LoginResponse) : LoginOutcome :=
  match apiResult with
  | .error msg => { storage := st, nav := none, alert := some msg }
  | .ok data =>
    if data.role ≠ expectedRole then
      { storage := st, nav := none, alert := some portalError }
    else
      { storage := (st.setItem "eduAttendToken" data.token).setItem
          "eduAttendUser" (stringifyLogin data),
        nav := some dashboardPage,
        alert := none }

/-- The faculty login submit handler (script.js lines 121-148). -/
def facultyLoginHandler (st : Storage) (apiResult : Except String LoginResponse) :
    LoginOutcome :=
  loginContinuation "faculty" "dashboard.html" "This portal is for faculty only."
    st apiResult

/-- The student login submit handler (script.js lines 154-181). -/
def studentLoginHandler (st : Storage) (apiResult : Except String LoginResponse) :
    LoginOutcome :=
  loginContinuation "student" "student-dashboard.html" "This portal is for students only."
    st apiResult

/-! ## The `apiRequest` response-processing path (script.js lines 44-101) -/

/-- The fields of a `fetch` `Response` that `apiRequest` inspects.
Headers are `Option` (JS `headers.get` returns `null` when absent). -/
structure Response where
  ok : Bool
  status : Nat
  statusText : String
  serverHeader : Option String
  backendHeader : Option String
  contentType : Option String
  body : String
deriving DecidableEq

/-- The projection of a parsed JSON body that `apiRequest` reads:
the `message` and `error` fields (absent fields are `none`). -/
structure JsonData where
  message : Option String := none
  error : Option String := none
deriving DecidableEq

/-- The content-type test of script.js line 53:
`contentType && contentType.includes("application/json")`. -/
def isJsonContentType : Option String → Bool
  | some ct => jsIncludes ct "application/json"
  | none => false

/-- The HTML-shape test of script.js lines 63 and 74:
the trimmed body starts with an HTML preamble. -/
def htmlShaped (text : String) : Bool :=
  strStartsWith (jsTrim text) "<!DOCTYPE html>" || strStartsWith (jsTrim text) "<html"

/-- Message of script.js line 65 (JSON branch, `backendHeader === 'EduAttend-Node'`). -/
def aliveMsg : String :=
  "The backend is alive but returned an HTML error page. Check backend logs for route matching issues."

/-- Message of script.js line 66 (JSON branch, header not `'EduAttend-Node'`). -/
def interceptedMsg (serverHeader : Option String) : String :=
  "The request was intercepted by a different server (" ++ jsOr serverHeader "Unknown" ++
  "). This usually means your deployment\x27s /api route is not correctly pointing to the Node.js backend."

/-- Message of script.js line 84 (non-JSON branch, `!backendHeader`: the
header is absent or the empty string). -/
def criticalMsg (serverHeader : Option String) : String :=
  "CRITICAL: The backend server was NOT reached. Request was handled by: " ++
  jsOr serverHeader "a static host" ++
  ". Ensure your deployment configuration routes /api to the Node server."

/-- Message of script.js line 86 (non-JSON branch, backend header truthy). -/
def respondedMsg (url : String) : String :=
  "The backend responded with an HTML page for " ++ url ++
  ". This implies a 404 or a server-side redirect occurred."

/-- The final `response.ok` check of script.js lines 91-94: throw
`data.message || data.error || Error status: statusText` on a non-ok
response, otherwise return the data. -/
def finishRequest (resp : Response) (data : JsonData) : Except String JsonData :=
  if !resp.ok then
    .error (if jsTruthy data.message then jsOr data.message ""
      else if jsTruthy data.error then jsOr data.error ""
      else "Error " ++ toString resp.status ++ ": " ++ resp.statusText)
  else .ok data

/-- The response-processing path of `apiRequest` (script.js lines 46-94),
after the `fetch` resolved. `parseJson` models `JSON.parse`: `none` when it
throws, `some` of the message/error projection otherwise. `url` is the
request URL (used in diagnostics). Returns `.error msg` when the code path
throws `new Error(msg)`. -/
def apiProcess (parseJson : String → Option JsonData) (url : String)
    (resp : Response) : Except String JsonData :=
  let text := resp.body
  if isJsonContentType resp.contentType then
    if jsTrim text ≠ "" then
      match parseJson text with
      | some data => finishRequest resp data
      | none =>
        if htmlShaped text then
          if resp.backendHeader = some "EduAttend-Node" then .error aliveMsg
          else .error (interceptedMsg resp.serverHeader)
        else .error ("Invalid JSON from server: " ++ text.take 30 ++ "...")
    else finishRequest resp { message := some "Success (No data returned)" }
  else
    let data : JsonData := if text ≠ "" then { message := some text } else {}
    let data :=
      if htmlShaped text then
        if !jsTruthy resp.backendHeader then
          { data with message := some (criticalMsg resp.serverHeader) }
        else { data with message := some (respondedMsg url) }
      else data
    finishRequest resp data

/-- The message an `apiProcess` outcome surfaces: the thrown error text, or
the `message` field of the returned data. -/
def surfacedMessage : Except String JsonData → Option String
  | .error m => some m
  | .ok d => d.message

/-! ## Student attendance statistics (`loadStudentAttendance`, lines 359-401) -/

/-- An attendance record as consumed by the client (spec section 3). -/
structure AttendanceRecord where
  subject : String
  status : String
  date : String
deriving DecidableEq

/-- JS `Math.round`: round half toward positive infinity. -/
def jsMathRound (x : ℚ) : ℤ := ⌊x + 1 / 2⌋

/-- The statistics shown on the student dashboard. -/
structure StudentStats where
  totalClasses : Nat
  presentCount : Nat
  missCount : Nat
  percentage : ℤ
deriving DecidableEq

/-- The statistics computation of `loadStudentAttendance`
(script.js lines 362-365). -/
def studentStats (history : List AttendanceRecord) : StudentStats :=
  let totalClasses := history.length
  let presentCount := (history.filter (fun a => a.status = "Present")).length
  let missCount := totalClasses - presentCount
  let percentage : ℤ :=
    if totalClasses > 0 then jsMathRound ((presentCount : ℚ) / (totalClasses : ℚ) * 100)
    else 0
  { totalClasses, presentCount, missCount, percentage }

/-! ## Rendered attendance lists (lines 271-292 and 377-397) -/

/-- Browser primitives with no algorithmic content, passed as parameters to
the rendering functions: date/time formatting and URI-component encoding. -/
structure JsEnv where
  toLocaleDateString : String → String
  toLocaleTimeString : String → String
  encodeURIComponent : String → String

/-- One `course-item` entry of the student attendance log
(script.js lines 387-393). -/
def studentLogItemHtml (env : JsEnv) (record : AttendanceRecord) : String :=
  "<div class=\"course-item\"><div class=\"course-name\">" ++ record.subject ++
  "</div><div style=\"color: #64748b; font-size: 0.85rem;\">" ++
  env.toLocaleDateString record.date ++
  "</div><div style=\"font-weight: 600;\" class=\"status-" ++ record.status.toLower ++
  "\">" ++ record.status ++ "</div></div>"

/-- The `innerHTML` assigned to the student dashboard `performance-list`
(script.js lines 380-396): a heading, then either the no-records placeholder
or the first ten history entries. -/
def studentLogHtml (env : JsEnv) (history : List AttendanceRecord) : String :=
  let header := "<h3 style=\"margin-bottom: 1.5rem; color: #1e293b;\">Recent Attendance Log</h3>"
  if history.length = 0 then
    header ++ "<p style=\"color: #64748b;\">No attendance records found.</p>"
  else
    header ++ String.join ((history.take 10).map (studentLogItemHtml env))

/-- A record of `GET /attendance/all` as rendered by the faculty dashboard:
like `AttendanceRecord` but carrying the student and a `created_at` stamp. -/
structure FacultyRecord where
  studentName : Option String
  studentUsername : String
  subject : String
  status : String
  created_at : String
deriving DecidableEq

/-- One table row of the faculty recent-attendance table
(script.js lines 278-289). -/
def facultyRowHtml (env : JsEnv) (record : FacultyRecord) : String :=
  let displayName := jsOr record.studentName record.studentUsername
  "<tr><td style=\"display: flex; align-items: center; gap: 0.75rem;\">" ++
  "<img src=\"https://ui-avatars.com/api/?name=" ++ env.encodeURIComponent displayName ++
  "&background=f1f5f9&color=6366f1\" style=\"width: 32px; border-radius: 8px;\">" ++
  displayName ++ "</td><td>" ++ record.subject ++ "</td><td>" ++
  env.toLocaleTimeString record.created_at ++
  "</td><td><span class=\"status-badge " ++ record.status.toLower ++ "\">" ++
  record.status ++ "</span></td></tr>"

/-- The `innerHTML` of the faculty dashboard table body after
`loadDashboardStats` renders the history (script.js lines 273-291): the
no-records row when the history is empty, otherwise the first five rows. -/
def facultyTableHtml (env : JsEnv) (history : List FacultyRecord) : String :=
  if history.length = 0 then
    "<tr><td colspan=\"4\" style=\"text-align: center;\">No recent attendance recorded.</td></tr>"
  else
    String.join ((history.take 5).map (facultyRowHtml env))

/-! ## Page initialization dispatch (`DOMContentLoaded`, lines 184-221) -/

/-- The locally persisted session (spec section 3). -/
structure Session where
  role : String
  name : String
  username : String
deriving DecidableEq

/-- `JSON.parse(localStorage.getItem('eduAttendUser'))` (script.js lines 186
and 201). A missing key gives JS `null`, and `JSON.parse(null)` is `null`
(modelled `.ok none`); a stored string is parsed by the `parseUser`
parameter, which models `JSON.parse`: `.error ()` when it throws, `.ok none`
for a falsy parse result, `.ok (some sess)` for a session object. -/
def readStoredUser (parseUser : String → Except Unit (Option Session))
    (st : Storage) : Except Unit (Option Session) :=
  match st.getItem "eduAttendUser" with
  | none => .ok none
  | some s => parseUser s

/-- Observable outcome of the `DOMContentLoaded` dashboard dispatch:
whether the faculty dashboard was rendered (welcome text set and
`loadDashboardStats` called), whether the student dashboard was rendered
(profile filled and `loadStudentAttendance` called), the page navigated to
via `window.location.href` (if any), and whether an uncaught exception
escaped the handler. -/
structure InitOutcome where
  facultyDashRendered : Bool := false
  studentDashRendered : Bool := false
  redirect : Option String := none
  threw : Bool := false
deriving DecidableEq

/-- The student-dashboard branch of `DOMContentLoaded`
(script.js lines 200-221), reached only when the faculty branch did not
`return`. `facultyRendered` records whether the faculty branch already ran
its rendering. -/
def studentDashBranch (parseUser : String → Except Unit (Option Session))
    (st : Storage) (pathname : String) (facultyRendered : Bool) : InitOutcome :=
  if jsIncludes pathname "student-dashboard.html" then
    match readStoredUser parseUser st with
    | .error _ => { facultyDashRendered := facultyRendered, threw := true }
    | .ok none =>
      { facultyDashRendered := facultyRendered, redirect := some "student-login.html" }
    | .ok (some user) =>
      if user.role ≠ "student" then
        { facultyDashRendered := facultyRendered, redirect := some "student-login.html" }
      else
        { facultyDashRendered := facultyRendered, studentDashRendered := true }
  else { facultyDashRendered := facultyRendered }

/-- The dashboard portion of the `DOMContentLoaded` handler
(script.js lines 184-221): the faculty-dashboard branch guarded by
`pathname.includes('dashboard.html')`, whose `return` on redirect exits the
whole handler, followed by the student-dashboard branch guarded by
`pathname.includes('student-dashboard.html')`. -/
def domInit (parseUser : String → Except Unit (Option Session))
    (st : Storage) (pathname : String) : InitOutcome :=
  if jsIncludes pathname "dashboard.html" then
    match readStoredUser parseUser st with
    | .error _ => { threw := true }
    | .ok none => { redirect := some "faculty-login.html" }
    | .ok (some user) =>
      if user.role ≠ "faculty" then { redirect := some "faculty-login.html" }
      else studentDashBranch parseUser st pathname true
  else studentDashBranch parseUser st pathname false

/-! ## Marking attendance (`markAttendance`, lines 338-356) -/

/-- The body of the `POST /attendance/mark` request (script.js lines 342-346). -/
structure MarkBody where
  studentId : String
  status : String
  subject : String
deriving DecidableEq

/-- The request issued by `markAttendance`. -/
structure MarkRequest where
  endpoint : String
  method : String
  body : MarkBody
deriving DecidableEq

/-- Observable outcome of `markAttendance`: the request that was sent, the
class lists of the row\x27s action buttons afterwards, and the alert shown
(if any). -/
structure MarkOutcome where
  request : MarkRequest
  buttonClasses : List (List String)
  alert : Option String
deriving DecidableEq

/-- `markAttendance(studentId, status, btn)` (script.js lines 338-356).
`buttonClasses` is the `classList` of each `.action-btn` in the clicked
button\x27s row and `btnIdx` the clicked button\x27s position; `apiResult`
is the outcome of the `/attendance/mark` request. On success every
button\x27s `active` class is removed and the clicked button gains it; on
failure an alert is shown and the classes are untouched. -/
def markAttendance (studentId status : String) (apiResult : Except String JsonData)
    (buttonClasses : List (List String)) (btnIdx : Nat) : MarkOutcome :=
  let request : MarkRequest :=
    { endpoint := "/attendance/mark", method := "POST",
      body := { studentId := studentId, status := status, subject := "CS101-A" } }
  match apiResult with
  | .ok _ =>
    { request,
      buttonClasses :=
        (buttonClasses.map (List.filter (fun c => c ≠ "active"))).mapIdx
          (fun i cs => if i = btnIdx then cs ++ ["active"] else cs),
      alert := none }
  | .error e =>
    { request, buttonClasses, alert := some ("Failed to mark attendance: " ++ e) }

/-! ## Logout (`logout`, lines 404-408) -/

/-- `logout()` (script.js lines 404-408): removes the two session keys and
navigates to `index.html`. Returns the storage afterwards and the
navigation target. -/
def logout (st : Storage) : Storage × String :=
  ((st.removeItem "eduAttendToken").removeItem "eduAttendUser", "index.html")

/-! ## Concrete test fixtures -/

/-- A 15-entry history: 10 `Present` followed by 5 `Absent` records. -/
def historyTenFive : List AttendanceRecord :=
  List.replicate 10 ⟨"CS101-A", "Present", "2025-01-01"⟩ ++
  List.replicate 5 ⟨"CS101-A", "Absent", "2025-01-01"⟩

/-- A JSON-content-type response carrying an HTML error page, with the
`X-Backend-Server` header present but not equal to `EduAttend-Node`. -/
def respHtmlJson : Response :=
  { ok := false, status := 404, statusText := "Not Found",
    serverHeader := some "cloudflare", backendHeader := some "nginx",
    contentType := some "application/json",
    body := "<html><body>404 Not Found</body></html>" }

/-- A non-JSON response carrying an HTML page, with no backend header. -/
def respHtmlStatic : Response :=
  { ok := true, status := 200, statusText := "OK",
    serverHeader := none, backendHeader := none, contentType := none,
    body := "<!DOCTYPE html><html><body>index</body></html>" }

/-- A non-JSON response carrying an HTML page, whose `X-Backend-Server`
header is present but the empty string (falsy in JS). -/
def respHtmlEmptyHeader : Response :=
  { ok := false, status := 502, statusText := "Bad Gateway",
    serverHeader := some "cloudflare", backendHeader := some "",
    contentType := some "text/html",
    body := "<html><body>502 Bad Gateway</body></html>" }

/-- A storage state holding an empty-string backend-URL override. -/
def storeEmptyOverride : Storage :=
  fun k => if k = "eduAttendBackendUrl" then some "" else none

/-- A storage state holding a non-empty backend-URL override. -/
def storeWithOverride : Storage :=
  fun k => if k = "eduAttendBackendUrl" then some "https://backend.example.com/api" else none

/-- A production page location. -/
def prodLoc : JsLocation := ⟨"app.example.com", "", "https:"⟩

/-- A `JSON.parse` model recognising one serialized student session. -/
def parseStudentSession : String → Except Unit (Option Session) :=
  fun s => if s = "STUDENT-SESSION" then .ok (some ⟨"student", "Stu Dent", "stu1"⟩)
    else .error ()

/-- A storage state holding a logged-in student session. -/
def storeStudentSession : Storage :=
  fun k => if k = "eduAttendUser" then some "STUDENT-SESSION"
    else if k = "eduAttendToken" then some "tok123" else none

/-- A storage state holding a session, a token, and a backend-URL override. -/
def storeFull : Storage :=
  fun k => if k = "eduAttendToken" then some "tok123"
    else if k = "eduAttendUser" then some "USER"
    else if k = "eduAttendBackendUrl" then some "https://backend.example.com/api"
    else none

/-! ## Helper lemmas -/

/-- A string with a nonempty left part is nonempty. -/
theorem append_ne_empty_of_left (a b : String) (h : a.length ≠ 0) : a ++ b ≠ "" := by
  intro he
  have hl := congrArg String.length he
  rw [String.length_append] at hl
  simp at hl
  omega

/-- The not-reached diagnostic is never the empty string. -/
theorem criticalMsg_ne_empty (sh : Option String) : criticalMsg sh ≠ "" := by
  rw [criticalMsg]
  apply append_ne_empty_of_left
  rw [String.length_append]
  have h0 : ("CRITICAL: The backend server was NOT reached. Request was handled by: " : String).length ≠ 0 := by decide
  omega

/-- The responded-with-HTML diagnostic is never the empty string. -/
theorem respondedMsg_ne_empty (url : String) : respondedMsg url ≠ "" := by
  rw [respondedMsg]
  apply append_ne_empty_of_left
  rw [String.length_append]
  have h0 : ("The backend responded with an HTML page for " : String).length ≠ 0 := by decide
  omega

/-- A nonempty string is truthy. -/
theorem jsTruthy_some_ne (s : String) (h : s ≠ "") : jsTruthy (some s) = true := by
  simp [jsTruthy, h]

/-- JS `||` keeps a nonempty left operand. -/
theorem jsOr_some_ne (s b : String) (h : s ≠ "") : jsOr (some s) b = s := by
  simp [jsOr, h]

/-- An HTML-shaped body is nonempty, before and after trimming. -/
theorem htmlShaped_ne_empty (t : String) (h : htmlShaped t = true) :
    jsTrim t ≠ "" ∧ t ≠ "" := by
  constructor
  · intro h0
    rw [htmlShaped, h0] at h
    exact absurd h (by decide)
  · intro h0
    rw [htmlShaped, h0] at h
    exact absurd h (by decide)

/-! ## Claim theorems -/

/-- C1: a login response whose role differs from the portal\x27s expected role
persists nothing (the storage is unchanged, so neither `eduAttendToken` nor
`eduAttendUser` is written), performs no navigation, and surfaces the
portal error message via alert — on both the faculty and student portals. -/
theorem loginWrongRole_noSession (st : Storage) (d : LoginResponse) :
    (d.role ≠ "faculty" →
      facultyLoginHandler st (.ok d) =
        { storage := st, nav := none, alert := some "This portal is for faculty only." }) ∧
    (d.role ≠ "student" →
      studentLoginHandler st (.ok d) =
        { storage := st, nav := none, alert := some "This portal is for students only." }) := by
  constructor <;> intro h <;>
    simp [facultyLoginHandler, studentLoginHandler, loginContinuation, h]

/-- Witness for C1: concrete wrong-role logins on both portals. -/
theorem loginWrongRole_noSession_witness :
    facultyLoginHandler (fun _ => none) (.ok ⟨"tok", "student", "A", "a1"⟩) =
      { storage := fun _ => none, nav := none, alert := some "This portal is for faculty only." } ∧
    studentLoginHandler (fun _ => none) (.ok ⟨"tok", "faculty", "B", "b1"⟩) =
      { storage := fun _ => none, nav := none, alert := some "This portal is for students only." } :=
  ⟨(loginWrongRole_noSession (fun _ => none) ⟨"tok", "student", "A", "a1"⟩).1 (by decide),
   (loginWrongRole_noSession (fun _ => none) ⟨"tok", "faculty", "B", "b1"⟩).2 (by decide)⟩

/-- C2: a successful login whose response role matches the portal stores the
response token under `eduAttendToken`, the serialized response under
`eduAttendUser`, and navigates to the portal\x27s dashboard page. -/
theorem loginSuccess_persistsSession (st : Storage) (token name username : String) :
    ((facultyLoginHandler st (.ok ⟨token, "faculty", name, username⟩)).storage.getItem
        "eduAttendToken" = some token ∧
      (facultyLoginHandler st (.ok ⟨token, "faculty", name, username⟩)).storage.getItem
        "eduAttendUser" = some (stringifyLogin ⟨token, "faculty", name, username⟩) ∧
      (facultyLoginHandler st (.ok ⟨token, "faculty", name, username⟩)).nav =
        some "dashboard.html" ∧
      (facultyLoginHandler st (.ok ⟨token, "faculty", name, username⟩)).alert = none) ∧
    ((studentLoginHandler st (.ok ⟨token, "student", name, username⟩)).storage.getItem
        "eduAttendToken" = some token ∧
      (studentLoginHandler st (.ok ⟨token, "student", name, username⟩)).storage.getItem
        "eduAttendUser" = some (stringifyLogin ⟨token, "student", name, username⟩) ∧
      (studentLoginHandler st (.ok ⟨token, "student", name, username⟩)).nav =
        some "student-dashboard.html" ∧
      (studentLoginHandler st (.ok ⟨token, "student", name, username⟩)).alert = none) := by
  refine ⟨⟨?_, ?_, ?_, ?_⟩, ⟨?_, ?_, ?_, ?_⟩⟩ <;>
    simp [facultyLoginHandler, studentLoginHandler, loginContinuation,
      Storage.setItem, Storage.getItem]

/-- C3: the student attendance percentage is
`round(presentCount / totalClasses * 100)` whenever the history is
nonempty, where `presentCount` counts records whose status is exactly
`Present`; any 15-record history with exactly 10 `Present` records yields
percentage 67. -/
theorem studentStats_percentageFormula (history : List AttendanceRecord) :
    (0 < history.length →
      (studentStats history).percentage =
        jsMathRound (((history.filter (fun a => a.status = "Present")).length : ℚ) /
          (history.length : ℚ) * 100)) ∧
    (history.length = 15 →
      (history.filter (fun a => a.status = "Present")).length = 10 →
      (studentStats history).percentage = 67) := by
  constructor
  · intro h
    simp only [studentStats, gt_iff_lt, h, if_true]
  · intro h15 h10
    simp only [studentStats, gt_iff_lt, h15, h10]
    norm_num [jsMathRound]

/-- Witness for C3: the 10-Present/5-Absent history yields 67. -/
theorem studentStats_percentageFormula_witness :
    (studentStats historyTenFive).percentage = 67 :=
  (studentStats_percentageFormula historyTenFive).2 (by decide) (by decide)

set_option maxRecDepth 8000 in
/-- C4 counterexample: a JSON-content-type response with an HTML-shaped body
and the `X-Backend-Server` header present (but `nginx`, not
`EduAttend-Node`) surfaces the intercepted-by-a-different-server message —
the not-reached classification — and not one of the routed-but-errored
messages, contradicting classification by mere header presence. -/
theorem apiProcess_headerPresence_cex :
    htmlShaped respHtmlJson.body = true ∧
    respHtmlJson.backendHeader.isSome = true ∧
    surfacedMessage (apiProcess (fun _ => none) "/api/auth/login" respHtmlJson) =
      some (interceptedMsg (some "cloudflare")) ∧
    interceptedMsg (some "cloudflare") ≠ aliveMsg ∧
    interceptedMsg (some "cloudflare") ≠ respondedMsg "/api/auth/login" := by
  refine ⟨by decide, by decide, by decide, by decide, by decide⟩

/-- C4 (amended): for an HTML-shaped response body, the JSON-content-type
branch classifies by whether `X-Backend-Server` equals `EduAttend-Node`
(equal: backend alive but returned an HTML error page; any other value, or
no header: request intercepted by a different server), while the non-JSON
branch classifies by JS truthiness of the header (absent or empty string:
backend not reached; otherwise: backend responded with an HTML page). -/
theorem apiProcess_htmlClassification (parseJson : String → Option JsonData)
    (url : String) (resp : Response) (hhtml : htmlShaped resp.body = true) :
    (isJsonContentType resp.contentType = true → parseJson resp.body = none →
      apiProcess parseJson url resp =
        .error (if resp.backendHeader = some "EduAttend-Node" then aliveMsg
          else interceptedMsg resp.serverHeader)) ∧
    (isJsonContentType resp.contentType = false →
      surfacedMessage (apiProcess parseJson url resp) =
        some (if jsTruthy resp.backendHeader then respondedMsg url
          else criticalMsg resp.serverHeader)) := by
  obtain ⟨htrim, hbody⟩ := htmlShaped_ne_empty resp.body hhtml
  constructor
  · intro hct hp
    simp [apiProcess, hct, hp, htrim, hhtml]
    split <;> rfl
  · intro hct
    cases hb : jsTruthy resp.backendHeader <;> by_cases ho : resp.ok <;>
      simp [apiProcess, hct, hhtml, hbody, htrim, hb, ho, surfacedMessage, finishRequest,
        jsTruthy_some_ne _ (criticalMsg_ne_empty resp.serverHeader),
        jsOr_some_ne _ _ (criticalMsg_ne_empty resp.serverHeader),
        jsTruthy_some_ne _ (respondedMsg_ne_empty url),
        jsOr_some_ne _ _ (respondedMsg_ne_empty url)]

set_option maxRecDepth 8000 in
/-- Witness for C4: all three classifications evaluated at concrete
responses, including a present-but-empty `X-Backend-Server` header, which
is falsy and so classified as not reached. -/
theorem apiProcess_htmlClassification_witness :
    apiProcess (fun _ => none) "/api/auth/login" respHtmlJson =
      .error (interceptedMsg (some "cloudflare")) ∧
    surfacedMessage (apiProcess (fun _ => none) "/api/students" respHtmlStatic) =
      some (criticalMsg none) ∧
    surfacedMessage (apiProcess (fun _ => none) "/api/attendance/all" respHtmlEmptyHeader) =
      some (criticalMsg (some "cloudflare")) := by
  refine ⟨?_, ?_, ?_⟩
  · have h := (apiProcess_htmlClassification (fun _ => none) "/api/auth/login" respHtmlJson
      (by decide)).1 (by decide) rfl
    rw [h, if_neg (by decide)]
    rfl
  · have h := (apiProcess_htmlClassification (fun _ => none) "/api/students" respHtmlStatic
      (by decide)).2 (by decide)
    rw [h, if_neg (by decide)]
    rfl
  · have h := (apiProcess_htmlClassification (fun _ => none) "/api/attendance/all"
      respHtmlEmptyHeader (by decide)).2 (by decide)
    rw [h, if_neg (by decide)]
    rfl

/-- C5 counterexample: an empty-string override is present in storage, yet
`getBaseUrl` does not return it (the stored value is falsy in JS, so the
override branch is skipped and the production default is returned). -/
theorem getBaseUrl_overridePresent_cex :
    storeEmptyOverride.getItem "eduAttendBackendUrl" = some "" ∧
    getBaseUrl storeEmptyOverride prodLoc = "/api" ∧
    ("/api" : String) ≠ "" := by
  refine ⟨by decide, by decide, by decide⟩

/-- C5 (amended): `getBaseUrl` returns a stored override when it is present
and non-empty; otherwise port `5000` gives the relative `/api`, otherwise a
local hostname or `file:` protocol gives `http://localhost:5000/api`, and
otherwise `/api` is returned. -/
theorem getBaseUrl_resolution (st : Storage) (loc : JsLocation) :
    (∀ ov, st.getItem "eduAttendBackendUrl" = some ov → ov ≠ "" →
      getBaseUrl st loc = ov) ∧
    (jsTruthy (st.getItem "eduAttendBackendUrl") = false →
      (loc.port = "5000" → getBaseUrl st loc = "/api") ∧
      (loc.port ≠ "5000" → (isLocalHost loc.hostname = true ∨ loc.protocol = "file:") →
        getBaseUrl st loc = "http://localhost:5000/api") ∧
      (loc.port ≠ "5000" → isLocalHost loc.hostname = false → loc.protocol ≠ "file:" →
        getBaseUrl st loc = "/api")) := by
  constructor
  · intro ov hov hne
    simp [getBaseUrl, hov, jsTruthy, jsOr, hne]
  · intro htr
    refine ⟨?_, ?_, ?_⟩
    · intro hport
      simp [getBaseUrl, htr, hport]
    · intro hport hlocal
      rcases hlocal with h | h <;> simp [getBaseUrl, htr, hport, h]
    · intro hport hlocal hfile
      simp [getBaseUrl, htr, hport, hlocal, hfile]

/-- Witness for C5: a non-empty override wins; a Live-Server-style local
page without an override resolves to the absolute localhost URL. -/
theorem getBaseUrl_resolution_witness :
    getBaseUrl storeWithOverride prodLoc = "https://backend.example.com/api" ∧
    getBaseUrl (fun _ => none) ⟨"localhost", "5500", "http:"⟩ = "http://localhost:5000/api" := by
  constructor
  · exact (getBaseUrl_resolution storeWithOverride prodLoc).1
      "https://backend.example.com/api" (by decide) (by decide)
  · exact ((getBaseUrl_resolution (fun _ => none) ⟨"localhost", "5500", "http:"⟩).2
      (by decide)).2.1 (by decide) (Or.inl (by decide))

/-- C6 (code bug): with a valid student session stored, loading
`student-dashboard.html` redirects to `faculty-login.html` and never
renders the student dashboard — the faculty guard fires first because
`'/student-dashboard.html'.includes('dashboard.html')` is true, and its
`return` exits the whole handler. -/
theorem studentDashboard_redirectBug :
    storeStudentSession.getItem "eduAttendUser" = some "STUDENT-SESSION" ∧
    parseStudentSession "STUDENT-SESSION" = .ok (some ⟨"student", "Stu Dent", "stu1"⟩) ∧
    jsIncludes "/student-dashboard.html" "dashboard.html" = true ∧
    domInit parseStudentSession storeStudentSession "/student-dashboard.html" =
      { facultyDashRendered := false, studentDashRendered := false,
        redirect := some "faculty-login.html", threw := false } := by
  refine ⟨by decide, rfl, by decide, by decide⟩

/-- C7: an empty attendance history renders the textual placeholders
`No attendance records found.` (student log) and
`No recent attendance recorded.` (faculty table), and neither rendering is
the empty string. -/
theorem emptyHistory_placeholders (env : JsEnv) :
    jsIncludes (studentLogHtml env []) "No attendance records found." = true ∧
    jsIncludes (facultyTableHtml env []) "No recent attendance recorded." = true ∧
    studentLogHtml env [] ≠ "" ∧
    facultyTableHtml env [] ≠ "" := by
  refine ⟨?_, ?_, ?_, ?_⟩ <;> simp [studentLogHtml, facultyTableHtml] <;> decide

/-- Witness for C7: the placeholders at a concrete environment. -/
theorem emptyHistory_placeholders_witness :
    jsIncludes (studentLogHtml ⟨id, id, id⟩ []) "No attendance records found." = true ∧
    jsIncludes (facultyTableHtml ⟨id, id, id⟩ []) "No recent attendance recorded." = true :=
  ⟨(emptyHistory_placeholders ⟨id, id, id⟩).1, (emptyHistory_placeholders ⟨id, id, id⟩).2.1⟩

/-- C8: `logout` removes exactly the two session keys — `eduAttendToken`
and `eduAttendUser` become absent, every other key keeps its previous
value — and navigates to `index.html`. -/
theorem logout_removesSessionOnly (st : Storage) :
    (logout st).1.getItem "eduAttendToken" = none ∧
    (logout st).1.getItem "eduAttendUser" = none ∧
    (∀ k, k ≠ "eduAttendToken" → k ≠ "eduAttendUser" →
      (logout st).1.getItem k = st.getItem k) ∧
    (logout st).2 = "index.html" := by
  refine ⟨?_, ?_, ?_, rfl⟩
  · simp [logout, Storage.removeItem, Storage.getItem]
  · simp [logout, Storage.removeItem, Storage.getItem]
  · intro k hk1 hk2
    simp [logout, Storage.removeItem, Storage.getItem, hk1, hk2]

/-- Witness for C8: the backend-URL override survives logout. -/
theorem logout_removesSessionOnly_witness :
    (logout storeFull).1.getItem "eduAttendBackendUrl" =
      some "https://backend.example.com/api" ∧
    (logout storeFull).2 = "index.html" := by
  have h := logout_removesSessionOnly storeFull
  exact ⟨by rw [h.2.2.1 "eduAttendBackendUrl" (by decide) (by decide)]; decide, h.2.2.2⟩

/-- C9: every `markAttendance` invocation posts to `/attendance/mark` a body
carrying the given `studentId` and `status` and the constant subject
`CS101-A`, whatever the API outcome, button row, or clicked index. -/
theorem markAttendance_constantSubject (studentId status : String)
    (apiResult : Except String JsonData) (buttonClasses : List (List String))
    (btnIdx : Nat) :
    (markAttendance studentId status apiResult buttonClasses btnIdx).request =
      { endpoint := "/attendance/mark", method := "POST",
        body := { studentId := studentId, status := status, subject := "CS101-A" } } := by
  cases apiResult <;> rfl

/-- C10: when the `/attendance/mark` request throws, `markAttendance` leaves
every button\x27s class list unchanged and surfaces the failure only as an
alert prefixed `Failed to mark attendance: `. -/
theorem markAttendance_failurePreservesButtons (studentId status errMsg : String)
    (buttonClasses : List (List String)) (btnIdx : Nat) :
    markAttendance studentId status (.error errMsg) buttonClasses btnIdx =
      { request :=
          { endpoint := "/attendance/mark", method := "POST",
            body := { studentId := studentId, status := status, subject := "CS101-A" } },
        buttonClasses := buttonClasses,
        alert := some ("Failed to mark attendance: " ++ errMsg) } := rfl

end EduAttend
